import Mathlib

/-!
Verification development for the Elena persona-bot repository.

The definitions below are a shallow embedding of the message-processing and
session-state core of the repository:

* `db_manager.py`   — MongoDB persistence layer (`DatabaseManager`)
* `ai_manager.py`   — Gemini completion gateway (`GeminiManager`)
* `persona_events.py` — message pipeline and session cache (`PersonaEvents`)
* `persona_commands.py` — thread-creation workflow (`PersonaCog`)

Async functions are modelled as pure functions with explicit state passing;
exceptions are modelled with `Except` or explicit outcome types; the Discord
and Google backends are modelled as explicit parameters.
-/

set_option autoImplicit false

namespace Elena

universe u

/-! ### Conversation history data model

A history entry is a Gemini-style role-tagged message fragment:
`{"role": ..., "parts": [{"text": ...}]}` (see `db_manager.update_thread_history`
and `persona_commands._initialize_persona`). -/

structure MsgPart where
  text : String
deriving DecidableEq

structure HistoryEntry where
  role : String
  parts : List MsgPart
deriving DecidableEq

def userEntry (text : String) : HistoryEntry := ⟨"user", [⟨text⟩]⟩

def modelEntry (text : String) : HistoryEntry := ⟨"model", [⟨text⟩]⟩

/-- The two new entries built by `DatabaseManager.update_thread_history`:
`[{"role": "user", ...user_message...}, {"role": "model", ...ai_response...}]`. -/
def new_history (user_message ai_response : String) : List HistoryEntry :=
  [userEntry user_message, modelEntry ai_response]

/-- MongoDB array-update modifier `$slice: -n`: keep only the last `n`
elements of the array. -/
def sliceLast {α : Type u} (n : Nat) (l : List α) : List α :=
  l.drop (l.length - n)

/-- The history cap used by `update_thread_history` (`$slice: -24`,
"Keep last 12 message pairs"). -/
def HISTORY_CAP : Nat := 24

/-- Effect on the stored `history` array of the single
`update_one({_id}, {$push: {history: {$each: new_history, $slice: -24}}})`
issued by `DatabaseManager.update_thread_history`: MongoDB appends the two
new entries and then keeps the last 24 elements. -/
def pushHistory (h : List HistoryEntry) (user_message ai_response : String) :
    List HistoryEntry :=
  sliceLast HISTORY_CAP (h ++ new_history user_message ai_response)

/-! #### Elementary facts about `sliceLast` -/

theorem sliceLast_length {α : Type u} (n : Nat) (l : List α) :
    (sliceLast n l).length = min l.length n := by
  simp only [sliceLast, List.length_drop]
  omega

theorem sliceLast_of_length_le {α : Type u} {n : Nat} {l : List α}
    (h : l.length ≤ n) : sliceLast n l = l := by
  simp [sliceLast, Nat.sub_eq_zero_of_le h]

theorem sliceLast_suffix {α : Type u} (n : Nat) (l : List α) :
    sliceLast n l <:+ l :=
  List.drop_suffix _ _

theorem sliceLast_eq_reverse_take {α : Type u} (n : Nat) (l : List α) :
    sliceLast n l = (l.reverse.take n).reverse := by
  induction l with
  | nil => simp [sliceLast]
  | cons a t ih =>
    by_cases h : t.length + 1 ≤ n
    · rw [sliceLast_of_length_le (by simpa using h)]
      rw [List.take_of_length_le (by simpa using h)]
      simp
    · have hn : n ≤ t.length := by omega
      simp only [sliceLast, List.length_cons]
      have hdrop : t.length + 1 - n = (t.length - n) + 1 := by omega
      rw [hdrop, List.drop_succ_cons]
      rw [List.reverse_cons, List.take_append_of_le_length (by simpa using hn)]
      exact ih

theorem sliceLast_append_left {α : Type u} (n : Nat) (xs ys : List α) :
    sliceLast n (xs ++ ys) =
      sliceLast (n - ys.length) xs ++ sliceLast n ys := by
  rw [sliceLast_eq_reverse_take, sliceLast_eq_reverse_take, sliceLast_eq_reverse_take,
    List.reverse_append, List.take_append_eq_append_take, List.reverse_append,
    List.length_reverse]

theorem sliceLast_sliceLast {α : Type u} {m n : Nat} (h : m ≤ n) (l : List α) :
    sliceLast m (sliceLast n l) = sliceLast m l := by
  rw [sliceLast_eq_reverse_take, sliceLast_eq_reverse_take, sliceLast_eq_reverse_take,
    List.reverse_reverse, List.take_take]
  congr 2
  omega

/-- Re-slicing after a slice-append is the same as slicing the full log:
this is the key algebraic fact behind the FIFO truncation behaviour. -/
theorem sliceLast_sliceLast_append {α : Type u} (n : Nat) (xs ys : List α) :
    sliceLast n (sliceLast n xs ++ ys) = sliceLast n (xs ++ ys) := by
  rw [sliceLast_append_left, sliceLast_append_left]
  congr 1
  exact sliceLast_sliceLast (Nat.sub_le _ _) xs

/-! ### Persistence layer (`db_manager.py`)

A session document (`persona_threads` collection).  MongoDB documents can
miss fields, so every field is an `Option`; `none` means the field is absent
from the document.  (`_id` is the association key in the store below.) -/

structure SessionDoc where
  name : Option String
  persona : Option String
  history : Option (List HistoryEntry)
  system_context : Option String
  channel_id : Option Nat
  guild_id : Option Nat
  created_by : Option Nat
  created_at : Option String
  avatar_url : Option String
deriving DecidableEq

/-- The `persona_threads` collection: `_id ↦ document`, in insertion order. -/
abbrev ThreadStore : Type := List (Nat × SessionDoc)

/-- Python `dict` lookup / MongoDB `find_one({"_id": k})`. -/
def dictGet {α : Type u} (m : List (Nat × α)) (k : Nat) : Option α :=
  match m with
  | [] => none
  | (k', v) :: rest => if k' == k then some v else dictGet rest k

/-- Python `dict` assignment `m[k] = v`. -/
def dictSet {α : Type u} (m : List (Nat × α)) (k : Nat) (v : α) : List (Nat × α) :=
  match m with
  | [] => [(k, v)]
  | (k', v') :: rest => if k' == k then (k, v) :: rest else (k', v') :: dictSet rest k v

/-- MongoDB `update_one({"_id": tid}, ...)`: update the (at most one)
matching document; second component is `modified_count` (a `$push` with a
non-empty `$each` always modifies a matched document). -/
def storeUpdateOne (s : ThreadStore) (tid : Nat) (f : SessionDoc → SessionDoc) :
    ThreadStore × Nat :=
  match s with
  | [] => ([], 0)
  | (k, d) :: rest =>
    if k == tid then ((k, f d) :: rest, 1)
    else
      let r := storeUpdateOne rest tid f
      ((k, d) :: r.1, r.2)

/-- MongoDB `delete_one({"_id": tid})`; second component is `deleted_count`. -/
def storeDeleteOne (s : ThreadStore) (tid : Nat) : ThreadStore × Nat :=
  match s with
  | [] => ([], 0)
  | (k, d) :: rest =>
    if k == tid then (rest, 1)
    else
      let r := storeDeleteOne rest tid
      ((k, d) :: r.1, r.2)

/-- Effect of the `$push {history: {$each, $slice: -24}}` modifier on one
document; `$push` on an absent field creates the array. -/
def docPushHistory (d : SessionDoc) (user_message ai_response : String) : SessionDoc :=
  ⟨d.name, d.persona, some (pushHistory (d.history.getD []) user_message ai_response),
    d.system_context, d.channel_id, d.guild_id, d.created_by, d.created_at, d.avatar_url⟩

/-- Error classes of `db_manager.py`: `ConnectionError` and `QueryError`
(both subclasses of `DatabaseError`). -/
inductive DBError where
  | connectionError (msg : String)
  | queryError (msg : String)
deriving DecidableEq

/-- Environment model for the MongoDB connection of one `DatabaseManager`:

* `clientExists` — `self.client is not None`;
* `pingOk` — the `ping` admin command succeeds;
* `reconnectOk` — a `connect()` attempt succeeds;
* `insertRaises` — an `insert_one` call raises a driver exception
  (e.g. the connection drops mid-call) even though the ping succeeded. -/
structure DBConn where
  clientExists : Bool
  pingOk : Bool
  reconnectOk : Bool
  insertRaises : Bool
  ackWrites : Bool
deriving DecidableEq

/-- `DatabaseManager.is_connected`: returns whether the connection is
usable, and how many reconnect (`connect()`) attempts were made.  With no
client it returns `False` immediately; with a client it pings, and on ping
failure makes exactly one `connect()` attempt (whose `ConnectionError`, if
any, is swallowed and turned into `False`). -/
def is_connected (c : DBConn) : Bool × Nat :=
  if c.clientExists = false then (false, 0)
  else if c.pingOk then (true, 0)
  else (c.reconnectOk, 1)

/-- `DatabaseManager.get_thread_data`.  Note: the `ConnectionError` raised
inside the `try` block when `is_connected` fails is caught by the same
operation's `except Exception` clause and re-raised as
`QueryError(f"Failed to fetch thread {thread_id}")`. -/
def get_thread_data (c : DBConn) (s : ThreadStore) (tid : Nat) :
    Except DBError (Option SessionDoc) × Nat :=
  let conn := is_connected c
  if conn.1 = false then
    (.error (.queryError ("Failed to fetch thread " ++ toString tid)), conn.2)
  else
    (.ok (dictGet s tid), conn.2)

/-- `DatabaseManager.create_thread_document`.  A `DuplicateKeyError` is
caught and treated as success (`True`); any other exception (including the
internal `ConnectionError`) is re-raised as `QueryError`. -/
def create_thread_document (c : DBConn) (s : ThreadStore) (tid : Nat) (data : SessionDoc) :
    Except DBError Bool × ThreadStore × Nat :=
  let conn := is_connected c
  if conn.1 = false then
    (.error (.queryError ("Failed to create thread " ++ toString tid)), s, conn.2)
  else if c.insertRaises then
    (.error (.queryError ("Failed to create thread " ++ toString tid)), s, conn.2)
  else if (dictGet s tid).isSome then
    -- DuplicateKeyError is caught: "already exists", treated as success
    (.ok true, s, conn.2)
  else
    -- returns `result.acknowledged`
    (.ok c.ackWrites, s ++ [(tid, data)], conn.2)

/-- `DatabaseManager.update_thread_history`: one
`update_one({_id}, {$push: {history: {$each: [user, model], $slice: -24}}})`;
returns `modified_count > 0`.  The internal `ConnectionError` is re-raised
as `QueryError`. -/
def update_thread_history (c : DBConn) (s : ThreadStore) (tid : Nat)
    (user_message ai_response : String) :
    Except DBError Bool × ThreadStore × Nat :=
  let conn := is_connected c
  if conn.1 = false then
    (.error (.queryError ("Failed to update thread " ++ toString tid ++ " history")), s, conn.2)
  else
    let r := storeUpdateOne s tid (fun d => docPushHistory d user_message ai_response)
    (.ok (decide (0 < r.2)), r.1, conn.2)

/-- `DatabaseManager.delete_thread`: `delete_one`, returns `deleted_count > 0`. -/
def delete_thread (c : DBConn) (s : ThreadStore) (tid : Nat) :
    Except DBError Bool × ThreadStore × Nat :=
  let conn := is_connected c
  if conn.1 = false then
    (.error (.queryError ("Failed to delete thread " ++ toString tid)), s, conn.2)
  else
    let r := storeDeleteOne s tid
    (.ok (decide (0 < r.2)), r.1, conn.2)

/-- `DatabaseManager.get_user_thread_count`:
`count_documents({"created_by": user_id})`. -/
def get_user_thread_count (c : DBConn) (s : ThreadStore) (uid : Nat) :
    Except DBError Nat × Nat :=
  let conn := is_connected c
  if conn.1 = false then
    (.error (.queryError ("Failed to count threads for user " ++ toString uid)), conn.2)
  else
    (.ok (s.filter (fun p => p.2.created_by == some uid)).length, conn.2)

/-- `DatabaseManager.get_active_thread_count`: `estimated_document_count()`. -/
def get_active_thread_count (c : DBConn) (s : ThreadStore) :
    Except DBError Nat × Nat :=
  let conn := is_connected c
  if conn.1 = false then
    (.error (.queryError "Failed to count active threads"), conn.2)
  else
    (.ok s.length, conn.2)

/-! ### Completion gateway (`ai_manager.py`, class `GeminiManager`) -/

/-- `GeminiManager.MAX_RETRIES`. -/
def MAX_RETRIES : Nat := 3

/-- One candidate of a Gemini response (`response.candidates[i]`), reduced to
its `content.parts`. -/
structure Candidate where
  parts : List MsgPart
deriving DecidableEq

/-- `response.text`: the concatenated text of the first candidate's parts. -/
def candText (c : Candidate) : String :=
  String.join (c.parts.map MsgPart.text)

/-- What one `chat_session.send_message_async` call does, as seen by
`generate_response`:

* `response cands blockReason` — the API returned a response object with
  candidate list `cands` and `prompt_feedback.block_reason` `blockReason`;
* `resourceExhausted` — the API raised `google_exceptions.ResourceExhausted`;
* `googleApiError msg` — the API raised a `google_exceptions.GoogleAPIError`;
* `otherError msg` — any other exception was raised. -/
inductive ApiResult where
  | response (cands : List Candidate) (blockReason : Option String)
  | resourceExhausted
  | googleApiError (msg : String)
  | otherError (msg : String)
deriving DecidableEq

/-- Behaviour of the upstream API: the outcome of the send attempt made at
recursion depth `retry_count` (`0` is the initial request). -/
abbrev Api : Type := Nat → ApiResult

/-- Outcome of `GeminiManager.generate_response`: the Python function
returns a `(response_text, error_message)` pair — always either
`(text, None)` or `(None, error)` — or lets `RateLimitExceeded` escape. -/
inductive GenResult where
  | ok (text : String)
  | err (msg : String)
  | raiseRateLimit
deriving DecidableEq

/-- Observable trace of one `generate_response` call: the `(prompt, history)`
request of every send attempt actually made, the `asyncio.sleep` backoff
waits (in seconds), and the outcome. -/
structure GenTrace where
  sent : List (String × List HistoryEntry)
  waits : List Nat
  result : GenResult
deriving DecidableEq

/-- `GeminiManager.generate_response(message_content, history, retry_count)`.

`available` models `self.is_available()`.  The `ContentBlocked` exception
raised for a blocked prompt is caught by the function's own
`except ContentBlocked` clause and converted to `(None, str(e))`.  On
`ResourceExhausted` the function sleeps `2 ** retry_count` seconds and
retries itself with `retry_count + 1` while `retry_count < MAX_RETRIES`,
after which it raises `RateLimitExceeded("API rate limit exceeded")`. -/
def generate_response (available : Bool) (api : Api)
    (message_content : String) (history : List HistoryEntry)
    (retry_count : Nat) : GenTrace :=
  if available = false then ⟨[], [], .err "AI service unavailable"⟩
  else
    match api retry_count with
    | .response cands blockReason =>
      match cands with
      | [] =>
        match blockReason with
        | some r => ⟨[(message_content, history)], [], .err ("Prompt blocked: " ++ r)⟩
        | none => ⟨[(message_content, history)], [], .err "Empty response from AI model"⟩
      | c :: _ =>
        if c.parts.isEmpty then
          ⟨[(message_content, history)], [], .err "Empty response content"⟩
        else ⟨[(message_content, history)], [], .ok (candText c)⟩
    | .resourceExhausted =>
      if h : retry_count < MAX_RETRIES then
        let t := generate_response available api message_content history (retry_count + 1)
        ⟨(message_content, history) :: t.sent, 2 ^ retry_count :: t.waits, t.result⟩
      else ⟨[(message_content, history)], [], .raiseRateLimit⟩
    | .googleApiError m => ⟨[(message_content, history)], [], .err ("API error: " ++ m)⟩
    | .otherError m => ⟨[(message_content, history)], [], .err ("Error generating response: " ++ m)⟩
termination_by MAX_RETRIES - retry_count
decreasing_by omega

/-- Python truthiness of an optional string (`None` and `""` are falsy). -/
def pyTruthy : Option String → Bool
  | none => false
  | some s => s != ""

/-- Outcome of `GeminiManager.generate_persona_response`: the returned
`(response, error)` pair together with the observable request trace of the
underlying `generate_response` call. -/
structure PersonaOut where
  sent : List (String × List HistoryEntry)
  waits : List Nat
  response : Option String
  error : Option String
deriving DecidableEq

/-- The persona prompt built by `generate_persona_response`:
`f"{system_context}\n\nUser: {message_content}"`. -/
def full_prompt (system_context message_content : String) : String :=
  system_context ++ "\n\nUser: " ++ message_content

/-- `GeminiManager.generate_persona_response(message_content, system_context,
history)`.  The `RateLimitExceeded` raised by `generate_response` is caught
by this function's own `except Exception` clause (it is an `AIError`, hence
an `Exception`), producing `(None, f"Error generating response: {str(e)}")`;
it is never re-raised.  A returned response is rejected as
`"Invalid response length"` when it is falsy or longer than 2000 characters. -/
def generate_persona_response (available : Bool) (api : Api)
    (message_content system_context : String) (history : List HistoryEntry) :
    PersonaOut :=
  if available = false then ⟨[], [], none, some "AI service unavailable"⟩
  else
    let t := generate_response available api
      (full_prompt system_context message_content) history 0
    match t.result with
    | .raiseRateLimit =>
      ⟨t.sent, t.waits, none, some "Error generating response: API rate limit exceeded"⟩
    | .err e =>
      if e != "" then ⟨t.sent, t.waits, none, some e⟩
      else
        -- `if error:` is falsy for an empty error string; the subsequent
        -- `if not response or len(response) > 2000:` then fires on `response = None`
        ⟨t.sent, t.waits, none, some "Invalid response length"⟩
    | .ok response =>
      if response == "" || decide (response.length > 2000) then
        ⟨t.sent, t.waits, none, some "Invalid response length"⟩
      else ⟨t.sent, t.waits, some response, none⟩

/-! ### Message pipeline and session cache (`persona_events.py`) -/

/-- `PersonaEvents.MAX_MESSAGE_LENGTH` (Discord message limit). -/
def MAX_MESSAGE_LENGTH : Nat := 2000

/-- The in-memory session cache `PersonaEvents._thread_cache`
(`{thread_id: thread_data}`). -/
abbrev Cache : Type := List (Nat × SessionDoc)

/-- The validation applied by `PersonaEvents._get_thread_data`:
`all(field in thread_data for field in ["name", "history", "system_context"])`. -/
def requiredFieldsPresent (d : SessionDoc) : Bool :=
  d.name.isSome && d.history.isSome && d.system_context.isSome

/-- `PersonaEvents._get_thread_data`: read-through cache resolve.  On a
cache hit the cached document is returned unchanged; on a miss the document
is fetched from the database, validated, and cached only when valid.

Note: the source line `if not self.db_manager.is_connected():` does not
`await` the coroutine; a coroutine object is truthy, so that early-return
branch can never fire and is omitted here.  Exceptions raised by
`db_manager.get_thread_data` propagate to the caller (`on_message`). -/
def events_get_thread_data (cache : Cache) (c : DBConn) (s : ThreadStore)
    (tid : Nat) : Except DBError (Option SessionDoc) × Cache :=
  match dictGet cache tid with
  | some d => (.ok (some d), cache)
  | none =>
    match get_thread_data c s tid with
    | (.error e, _) => (.error e, cache)
    | (.ok none, _) => (.ok none, cache)
    | (.ok (some d), _) =>
      if requiredFieldsPresent d then (.ok (some d), dictSet cache tid d)
      else (.ok none, cache)

/-- `PersonaEvents._generate_ai_response`: returns the reply text (or `None`)
together with the request trace of the underlying gateway call.  A reply
longer than 2000 characters would be cut to its first 1997 characters plus
`"..."` — but `generate_persona_response` never returns such a reply. -/
def events_generate_ai_response (available : Bool) (api : Api)
    (user_message system_context : String) (history : List HistoryEntry) :
    Option String × List (String × List HistoryEntry) :=
  if available = false then (none, [])
  else
    let o := generate_persona_response available api user_message system_context history
    -- `if error or not response: return None`
    if pyTruthy o.error || !(pyTruthy o.response) then (none, o.sent)
    else
      let response := o.response.getD ""
      if decide (response.length > MAX_MESSAGE_LENGTH) then
        (some (response.take (MAX_MESSAGE_LENGTH - 3) ++ "..."), o.sent)
      else (some response, o.sent)

/-- `PersonaEvents._update_thread_history`: delegates to the database
manager and converts any raised exception to `False`.  (Here too the
un-awaited `is_connected()` check is truthy and never fires.) -/
def events_update_thread_history (c : DBConn) (s : ThreadStore) (tid : Nat)
    (user_message ai_response : String) : Bool × ThreadStore :=
  match update_thread_history c s tid user_message ai_response with
  | (.error _, s', _) => (false, s')
  | (.ok b, s', _) => (b, s')

/-- `PersonaEvents._process_persona_message`: generate a reply from the
resolved `thread_data`, send it, and append the exchange to the persisted
history.  (`_enforce_rate_limit` only sleeps and touches
`_last_response_times`; it does not affect session state and is not
modelled.)  The dictionary accesses `thread_data["system_context"]` and
`thread_data["history"]` are only reached with validated documents, where
both fields are present.  Returns
`(reply sent, AI requests made, store after, history updated)`. -/
def process_persona_message (available : Bool) (api : Api) (c : DBConn)
    (s : ThreadStore) (tid : Nat) (content : String) (thread_data : SessionDoc) :
    Option String × List (String × List HistoryEntry) × ThreadStore × Bool :=
  let g := events_generate_ai_response available api content
    (thread_data.system_context.getD "") (thread_data.history.getD [])
  match g.1 with
  | none => (none, g.2, s, false)
  | some r =>
    let u := events_update_thread_history c s tid content r
    (some r, g.2, u.2, u.1)

/-- Observable outcome of handling one inbound thread message. -/
structure HandleOut where
  cache : Cache
  store : ThreadStore
  reply : Option String
  requests : List (String × List HistoryEntry)
  historyUpdated : Bool
deriving DecidableEq

/-- `PersonaEvents.on_message`, restricted to a non-bot message in a thread:
resolve the session through the cache, suppress when unresolved, otherwise
process.  A `DatabaseError` escaping `_get_thread_data` is caught by the
`except Exception` handler, which replies with a generic error notice. -/
def handle_thread_message (available : Bool) (api : Api) (c : DBConn)
    (cache : Cache) (s : ThreadStore) (tid : Nat) (content : String) : HandleOut :=
  match events_get_thread_data cache c s tid with
  | (.error _, cache') =>
    ⟨cache', s, some "(An unexpected error occurred)", [], false⟩
  | (.ok none, cache') => ⟨cache', s, none, [], false⟩
  | (.ok (some d), cache') =>
    let p := process_persona_message available api c s tid content d
    ⟨cache', p.2.2.1, p.1, p.2.1, p.2.2.2⟩

/-! ### Thread-creation workflow (`persona_commands.py`, class `PersonaCog`) -/

def DEFAULT_PERSONA : String :=
  "You are a helpful and friendly AI assistant with a unique personality. You\x27re knowledgeable, creative, and enjoy engaging in meaningful conversations."

/-- `PersonaCog.RATE_LIMIT` (5-minute creation cooldown), in seconds. -/
def RATE_LIMIT_SECONDS : Nat := 300

/-- `PersonaCog.MAX_THREADS_PER_USER`. -/
def MAX_THREADS_PER_USER : Nat := 3

/-- Python `s.startswith(pre)`, as a character-list comparison. -/
def pyStartsWith (s pre : String) : Bool :=
  List.isPrefixOf pre.data s.data

/-- Python `a or default` for an optional string (both `None` and `""` are
falsy, so an empty persona string also falls back to the default). -/
def pyOrStr (o : Option String) (dflt : String) : String :=
  match o with
  | some s => if s != "" then s else dflt
  | none => dflt

/-- The derived `system_context` built by `PersonaCog._initialize_persona`. -/
def system_context_of (name final_persona : String) : String :=
  "You are " ++ name ++ ". You are participating in a roleplay conversation. Character instructions: "
    ++ final_persona
    ++ "\n\nStay in character at all times. Keep responses conversational and engaging. Respond as the character, not as an AI."

/-- The seed history written by `PersonaCog._initialize_persona`: one
`user`/`model` exchange pair describing the roleplay. -/
def initial_history (name final_persona : String) : List HistoryEntry :=
  [⟨"user", [⟨"Roleplay details: " ++ final_persona⟩]⟩,
   ⟨"model", [⟨"I\x27ll roleplay as " ++ name⟩]⟩]

/-- The session document assembled by `PersonaCog._initialize_persona`. -/
def initial_thread_data (name final_persona : String) (channel_id : Nat)
    (guild_id : Option Nat) (created_by : Nat) (created_at avatar_url : String) :
    SessionDoc :=
  ⟨some name, some final_persona, some (initial_history name final_persona),
    some (system_context_of name final_persona), some channel_id, guild_id,
    some created_by, some created_at, some avatar_url⟩

/-- Exceptions of the thread-creation workflow.  `InvalidPersonaParameters`
and (the commands module's) `RateLimitExceeded` are subclasses of
`PersonaCommandError`; database errors are not. -/
inductive PyExn where
  | personaCommandError (msg : String)
  | invalidPersonaParameters (msg : String)
  | rateLimitExceeded (msg : String)
  | dbError (e : DBError)
deriving DecidableEq

/-- Whether `except PersonaCommandError` catches the exception. -/
def isPersonaCommandError : PyExn → Bool
  | .personaCommandError _ => true
  | .invalidPersonaParameters _ => true
  | .rateLimitExceeded _ => true
  | .dbError _ => false

/-- `str(e)` for the exceptions above. -/
def pyExnMsg : PyExn → String
  | .personaCommandError m => m
  | .invalidPersonaParameters m => m
  | .rateLimitExceeded m => m
  | .dbError (.connectionError m) => m
  | .dbError (.queryError m) => m

/-- The user-facing failure reply produced by `_create_persona_thread`'s
exception handlers: `f"❌ {str(e)}"` for a `PersonaCommandError`, a generic
notice for anything else. -/
def reportExn (e : PyExn) : String :=
  if isPersonaCommandError e then "❌ " ++ pyExnMsg e
  else "❌ An unexpected error occurred. Please try again later."

/-- In-memory rate-limit state of `PersonaCog`:
`user_cooldowns : {user_id: last_thread_creation}` and
`user_thread_counts : {user_id: thread_count}`. -/
structure CmdState where
  user_cooldowns : List (Nat × Nat)
  user_thread_counts : List (Nat × Nat)
deriving DecidableEq

/-- `PersonaCog.check_rate_limit`: raise when the user created a thread less
than 5 minutes ago; then refresh `user_thread_counts[user]` from the
database's authoritative count (`thread_count or 0` — the identity on
naturals) and raise when the cap of 3 is reached.  Timestamps are seconds. -/
def check_rate_limit (c : DBConn) (s : ThreadStore) (st : CmdState)
    (user now : Nat) : Except PyExn Unit × CmdState :=
  let blocked :=
    match dictGet st.user_cooldowns user with
    | some last => decide (now - last < RATE_LIMIT_SECONDS)
    | none => false
  if blocked then
    (.error (.rateLimitExceeded "You\x27re creating threads too fast. Please wait 5 minutes."), st)
  else
    match get_user_thread_count c s user with
    | (.error e, _) => (.error (.dbError e), st)
    | (.ok thread_count, _) =>
      let st' := CmdState.mk st.user_cooldowns (dictSet st.user_thread_counts user thread_count)
      if decide (MAX_THREADS_PER_USER ≤ thread_count) then
        (.error (.rateLimitExceeded "You\x27ve reached the maximum of 3 active personas. Please delete some before creating new ones."), st')
      else (.ok (), st')

/-- Outcome of `PersonaCog._initialize_persona` up to the database write:
whether the compensating `thread.delete()` ran, the exception that escapes
(if any), and the resulting store.  When `create_thread_document` *returns*
`False`, the thread is deleted and `PersonaCommandError` is raised; when it
*raises* (its `QueryError`), the exception propagates directly and the
compensating delete is never executed. -/
structure InitPersonaOut where
  threadDeleted : Bool
  raised : Option PyExn
  store : ThreadStore
deriving DecidableEq

def initialize_persona (c : DBConn) (s : ThreadStore) (tid : Nat)
    (name : String) (persona : Option String) (channel_id : Nat)
    (guild_id : Option Nat) (created_by : Nat) (created_at avatar_url : String) :
    InitPersonaOut :=
  let final_persona := pyOrStr persona DEFAULT_PERSONA
  let data := initial_thread_data name final_persona channel_id guild_id
    created_by created_at avatar_url
  match create_thread_document c s tid data with
  | (.error e, s', _) => ⟨false, some (.dbError e), s'⟩
  | (.ok ok, s', _) =>
    if ok = false then ⟨true, some (.personaCommandError "Failed to save persona data"), s'⟩
    else ⟨false, none, s'⟩

deriving instance DecidableEq for Except

/-- Inputs of one `/persona_private` or `/persona_public` invocation.
`threadCreate` is the outcome of the Discord `channel.create_thread` call
(performed by `_create_thread`): the created thread id, or the
`PersonaCommandError` that `_create_thread` raises on a Discord failure. -/
structure CreateInput where
  user : Nat
  now : Nat
  name : String
  avatar_content_type : Option String
  avatar_url : String
  persona : Option String
  channelIsText : Bool
  threadCreate : Except PyExn Nat
  channel_id : Nat
  guild_id : Option Nat
  created_at : String
  isPrivate : Bool
deriving DecidableEq

/-- Observable outcome of `_create_persona_thread`. -/
structure CmdOut where
  state : CmdState
  store : ThreadStore
  threadCreated : Bool
  threadDeleted : Bool
  failure : Option PyExn
  reply : String
deriving DecidableEq

/-- `thread.mention` in the success reply. -/
def threadMention (tid : Nat) : String := "<#" ++ toString tid ++ ">"

/-- `PersonaCog._create_persona_thread`: the full validated creation
workflow.  Precondition order: AI availability, persistence availability,
cooldown, per-user cap, name length, avatar content type, channel type,
platform thread creation, session-document write.

Note: the persistence-availability check
`if not self.db_manager.is_connected():` does not `await` the coroutine
(unlike the one in `cog_load`); the coroutine object is truthy, so this
precondition can never fail and is omitted here. -/
def create_persona_thread (aiAvailable : Bool) (c : DBConn) (s : ThreadStore)
    (st : CmdState) (inp : CreateInput) : CmdOut :=
  if aiAvailable = false then
    let e := PyExn.personaCommandError "AI service is currently unavailable"
    ⟨st, s, false, false, some e, reportExn e⟩
  else
    match check_rate_limit c s st inp.user inp.now with
    | (.error e, st') => ⟨st', s, false, false, some e, reportExn e⟩
    | (.ok _, st') =>
      if decide (inp.name.length < 2) || decide (32 < inp.name.length) then
        let e := PyExn.invalidPersonaParameters "Name must be 2-32 characters"
        ⟨st', s, false, false, some e, reportExn e⟩
      else if !(pyTruthy inp.avatar_content_type)
          || !(pyStartsWith (inp.avatar_content_type.getD "") "image/") then
        let e := PyExn.invalidPersonaParameters "Avatar must be an image (JPG/PNG/GIF)"
        ⟨st', s, false, false, some e, reportExn e⟩
      else if inp.channelIsText = false then
        let e := PyExn.invalidPersonaParameters "Command only works in server text channels"
        ⟨st', s, false, false, some e, reportExn e⟩
      else
        match inp.threadCreate with
        | .error e => ⟨st', s, false, false, some e, reportExn e⟩
        | .ok tid =>
          let ini := initialize_persona c s tid inp.name inp.persona
            inp.channel_id inp.guild_id inp.user inp.created_at inp.avatar_url
          match ini.raised with
          | some e => ⟨st', ini.store, true, ini.threadDeleted, some e, reportExn e⟩
          | none =>
            let st2 := CmdState.mk (dictSet st'.user_cooldowns inp.user inp.now)
              (dictSet st'.user_thread_counts inp.user
                ((dictGet st'.user_thread_counts inp.user).getD 0 + 1))
            ⟨st2, ini.store, true, false, none,
              "✅ Created " ++ (if inp.isPrivate then "private" else "public")
                ++ " persona thread: " ++ threadMention tid⟩

/-! ### Helper lemmas -/

theorem dictGet_all {α : Type u} {P : α → Bool} {m : List (Nat × α)} {k : Nat} {v : α}
    (hall : m.all (fun p => P p.2) = true) (hget : dictGet m k = some v) :
    P v = true := by
  induction m with
  | nil => simp [dictGet] at hget
  | cons p rest ih =>
    obtain ⟨k', v'⟩ := p
    simp only [List.all_cons, Bool.and_eq_true] at hall
    by_cases hk : (k' == k) = true
    · simp [dictGet, hk] at hget
      exact hget ▸ hall.1
    · simp only [dictGet, hk] at hget
      simp only [Bool.false_eq_true, if_false] at hget
      exact ih hall.2 hget

theorem dictSet_all {α : Type u} {P : α → Bool} {m : List (Nat × α)} {k : Nat} {v : α}
    (hall : m.all (fun p => P p.2) = true) (hv : P v = true) :
    (dictSet m k v).all (fun p => P p.2) = true := by
  induction m with
  | nil => simp [dictSet, hv]
  | cons p rest ih =>
    obtain ⟨k', v'⟩ := p
    simp only [List.all_cons, Bool.and_eq_true] at hall
    by_cases hk : (k' == k) = true
    · simp [dictSet, hk, hv, hall.2]
    · simp [dictSet, hk, hall.1, ih hall.2]

theorem storeUpdateOne_count (s : ThreadStore) (tid : Nat) (f : SessionDoc → SessionDoc) :
    (storeUpdateOne s tid f).2 = if (dictGet s tid).isSome then 1 else 0 := by
  induction s with
  | nil => simp [storeUpdateOne, dictGet]
  | cons p rest ih =>
    obtain ⟨k, d⟩ := p
    by_cases hk : (k == tid) = true
    · simp [storeUpdateOne, dictGet, hk]
    · simp [storeUpdateOne, dictGet, hk, ih]

theorem storeUpdateOne_find (s : ThreadStore) (tid : Nat) (f : SessionDoc → SessionDoc) :
    dictGet (storeUpdateOne s tid f).1 tid = (dictGet s tid).map f := by
  induction s with
  | nil => simp [storeUpdateOne, dictGet]
  | cons p rest ih =>
    obtain ⟨k, d⟩ := p
    by_cases hk : (k == tid) = true
    · have : (tid == tid) = true := by simp
      simp [storeUpdateOne, dictGet, hk, this]
    · simp [storeUpdateOne, dictGet, hk, ih]

theorem storeUpdateOne_frame (s : ThreadStore) (tid : Nat) (f : SessionDoc → SessionDoc) :
    (storeUpdateOne s tid f).1.filter (fun p => p.1 != tid)
      = s.filter (fun p => p.1 != tid) := by
  induction s with
  | nil => simp [storeUpdateOne]
  | cons p rest ih =>
    obtain ⟨k, d⟩ := p
    by_cases hk : (k == tid) = true
    · have hbeq : k = tid := by simpa using hk
      simp [storeUpdateOne, hk, hbeq]
    · have hne : (k != tid) = true := by simpa using hk
      simp [storeUpdateOne, hk, hne, ih]

/-! ### Claim C1 -/

/-- `N` successive `appendExchange` operations on a history value, as the
persistence layer applies them (`update_thread_history` per exchange). -/
def appendMany (h : List HistoryEntry) : List (String × String) → List HistoryEntry
  | [] => h
  | p :: rest => appendMany (pushHistory h p.1 p.2) rest

/-- The full, untruncated exchange log of a message sequence. -/
def flatExchanges (msgs : List (String × String)) : List HistoryEntry :=
  msgs.foldr (fun p acc => new_history p.1 p.2 ++ acc) []

theorem flatExchanges_length (msgs : List (String × String)) :
    (flatExchanges msgs).length = 2 * msgs.length := by
  induction msgs with
  | nil => rfl
  | cons p rest ih =>
    have hstep : flatExchanges (p :: rest) = new_history p.1 p.2 ++ flatExchanges rest := rfl
    have h2 : (new_history p.1 p.2).length = 2 := rfl
    rw [hstep, List.length_append, ih, h2, List.length_cons]
    omega

theorem appendMany_eq (msgs : List (String × String)) (h : List HistoryEntry)
    (hlen : h.length ≤ HISTORY_CAP) :
    appendMany h msgs = sliceLast HISTORY_CAP (h ++ flatExchanges msgs) := by
  induction msgs generalizing h with
  | nil =>
    rw [show flatExchanges [] = [] from rfl, List.append_nil]
    exact (sliceLast_of_length_le hlen).symm
  | cons p rest ih =>
    have hlen' : (pushHistory h p.1 p.2).length ≤ HISTORY_CAP := by
      rw [pushHistory, sliceLast_length]
      omega
    rw [show appendMany h (p :: rest) = appendMany (pushHistory h p.1 p.2) rest from rfl,
      ih _ hlen', pushHistory, sliceLast_sliceLast_append, List.append_assoc]
    rfl

/-- Claim C1 (amended): the thread-creation workflow seeds every session
with a 2-entry history (one `user`/`model` pair built by
`_initialize_persona`), so after `N` successive `appendExchange`
(`update_thread_history`) calls the history length is `min (2·N + 2) 24`
(not `min (2·N) 24`), and the retained entries are exactly the most recent
`min (2·N + 2) 24` entries of the full log — the oldest entries are the
ones evicted (FIFO truncation). -/
theorem claim_C1 (name persona : String) (msgs : List (String × String)) :
    (appendMany (initial_history name persona) msgs).length
        = min (2 * msgs.length + 2) 24
      ∧ appendMany (initial_history name persona) msgs
        = sliceLast 24 (initial_history name persona ++ flatExchanges msgs) := by
  have hinit : (initial_history name persona).length = 2 := by
    simp [initial_history]
  have hrep := appendMany_eq msgs (initial_history name persona)
    (by rw [hinit]; simp [HISTORY_CAP])
  have hcap : HISTORY_CAP = 24 := rfl
  rw [hcap] at hrep
  constructor
  · rw [hrep, sliceLast_length, List.length_append, hinit, flatExchanges_length]
    omega
  · exact hrep

/-- Claim C1 as stated is false: a session created by the thread-creation
workflow starts with the 2-entry seed history, so after `N = 1`
`appendExchange` call its history has 4 entries, not `min (2·1, 24) = 2`. -/
theorem claim_C1_counterexample :
    (appendMany (initial_history "Elena" "friendly") [("hi", "hello")]).length = 4
      ∧ (appendMany (initial_history "Elena" "friendly") [("hi", "hello")]).length
          ≠ min (2 * 1) 24 := by
  constructor
  · rfl
  · intro hcontra
    rw [show (min (2 * 1) 24) = 2 from rfl] at hcontra
    exact absurd hcontra (by decide)

/-! ### Claim C5 -/

/-- Claim C5: `update_thread_history` performs the append-and-trim as one
`update_one` persistence operation.  With the connection up:
the call reports success exactly when the session document exists; the
stored history of the target document becomes the `$push`/`$slice` of its
previous value (exactly two entries appended — `user` then `model` — then
the trailing 24-entry window); all other documents are untouched.
Functionally, the pushed history value: equals the previous history plus
the two entries when there was room (length ≤ 22); is a suffix of the full
appended log (most recent entries retained); has length
`min (previous + 2) 24`, hence is at most 24 entries at rest after any
write. -/
theorem claim_C5 (c : DBConn) (s : ThreadStore) (tid : Nat)
    (h : List HistoryEntry) (u a : String)
    (hclient : c.clientExists = true) (hping : c.pingOk = true) :
    (update_thread_history c s tid u a).1 = .ok (dictGet s tid).isSome
      ∧ dictGet (update_thread_history c s tid u a).2.1 tid
          = (dictGet s tid).map (fun d => docPushHistory d u a)
      ∧ (update_thread_history c s tid u a).2.1.filter (fun p => p.1 != tid)
          = s.filter (fun p => p.1 != tid)
      ∧ (decide (h.length + 2 ≤ 24) = false
          ∨ pushHistory h u a = h ++ [userEntry u, modelEntry a])
      ∧ pushHistory h u a <:+ h ++ [userEntry u, modelEntry a]
      ∧ (pushHistory h u a).length = min (h.length + 2) 24
      ∧ (pushHistory h u a).length ≤ 24 := by
  have hconn : is_connected c = (true, 0) := by
    simp [is_connected, hclient, hping]
  have hnew : (new_history u a) = [userEntry u, modelEntry a] := rfl
  have hcap : HISTORY_CAP = 24 := rfl
  have hlen : (pushHistory h u a).length = min (h.length + 2) 24 := by
    rw [pushHistory, sliceLast_length, List.length_append, hnew, hcap]
    simp
  refine ⟨?_, ?_, ?_, ?_, ?_, hlen, ?_⟩
  · simp only [update_thread_history, hconn]
    rw [storeUpdateOne_count]
    cases hfind : (dictGet s tid).isSome <;> simp [hfind]
  · simp only [update_thread_history, hconn]
    simp [storeUpdateOne_find]
  · simp only [update_thread_history, hconn]
    simp [storeUpdateOne_frame]
  · by_cases hroom : h.length + 2 ≤ 24
    · right
      rw [pushHistory, hnew]
      exact sliceLast_of_length_le (by rw [List.length_append, hcap]; simpa using hroom)
    · left
      simpa using hroom
  · rw [pushHistory, hnew]
    exact sliceLast_suffix _ _
  · rw [hlen]
    omega

/-- Witness for claim C5 at a concrete connection, store and history. -/
theorem claim_C5_witness :
    (update_thread_history ⟨true, true, true, false, true⟩
        [(1, initial_thread_data "Elena" "kind" 5 none 7 "t0" "u0")] 1 "hi" "hey").1
      = .ok (dictGet [(1, initial_thread_data "Elena" "kind" 5 none 7 "t0" "u0")] 1).isSome
    ∧ dictGet (update_thread_history ⟨true, true, true, false, true⟩
        [(1, initial_thread_data "Elena" "kind" 5 none 7 "t0" "u0")] 1 "hi" "hey").2.1 1
      = (dictGet [(1, initial_thread_data "Elena" "kind" 5 none 7 "t0" "u0")] 1).map
          (fun d => docPushHistory d "hi" "hey")
    ∧ (update_thread_history ⟨true, true, true, false, true⟩
        [(1, initial_thread_data "Elena" "kind" 5 none 7 "t0" "u0")] 1 "hi" "hey").2.1.filter
          (fun p => p.1 != 1)
      = [(1, initial_thread_data "Elena" "kind" 5 none 7 "t0" "u0")].filter (fun p => p.1 != 1)
    ∧ (decide (([] : List HistoryEntry).length + 2 ≤ 24) = false
        ∨ pushHistory [] "hi" "hey" = [] ++ [userEntry "hi", modelEntry "hey"])
    ∧ pushHistory [] "hi" "hey" <:+ [] ++ [userEntry "hi", modelEntry "hey"]
    ∧ (pushHistory [] "hi" "hey").length = min (([] : List HistoryEntry).length + 2) 24
    ∧ (pushHistory [] "hi" "hey").length ≤ 24 :=
  claim_C5 ⟨true, true, true, false, true⟩
    [(1, initial_thread_data "Elena" "kind" 5 none 7 "t0" "u0")] 1 [] "hi" "hey" rfl rfl

/-! ### Claim C4 -/

/-- Claim C4: when every upstream attempt raises the throttling signal
(`ResourceExhausted`), `generate_response` makes the initial request plus
exactly 3 retries, sleeping 1, 2 and 4 seconds before the respective
retries, and after the third retry fails it raises `RateLimitExceeded`. -/
theorem claim_C4 (api : Api) (mc : String) (hist : List HistoryEntry)
    (hthrottle : ∀ n, api n = ApiResult.resourceExhausted) :
    generate_response true api mc hist 0
        = ⟨[(mc, hist), (mc, hist), (mc, hist), (mc, hist)], [1, 2, 4], .raiseRateLimit⟩
      ∧ (generate_response true api mc hist 0).waits = [1, 2, 4]
      ∧ (generate_response true api mc hist 0).waits.length = 3
      ∧ (generate_response true api mc hist 0).result = .raiseRateLimit := by
  have hmain : generate_response true api mc hist 0
      = ⟨[(mc, hist), (mc, hist), (mc, hist), (mc, hist)], [1, 2, 4], .raiseRateLimit⟩ := by
    simp [generate_response, hthrottle, MAX_RETRIES]
  exact ⟨hmain, by rw [hmain], by simp [hmain], by rw [hmain]⟩

/-- Witness for claim C4: the always-throttled upstream. -/
theorem claim_C4_witness :
    generate_response true (fun _ => ApiResult.resourceExhausted) "hello" [] 0
        = ⟨[("hello", []), ("hello", []), ("hello", []), ("hello", [])], [1, 2, 4],
            .raiseRateLimit⟩
      ∧ (generate_response true (fun _ => ApiResult.resourceExhausted) "hello" [] 0).waits
          = [1, 2, 4]
      ∧ (generate_response true (fun _ => ApiResult.resourceExhausted) "hello" [] 0).waits.length
          = 3
      ∧ (generate_response true (fun _ => ApiResult.resourceExhausted) "hello" [] 0).result
          = .raiseRateLimit :=
  claim_C4 (fun _ => ApiResult.resourceExhausted) "hello" [] (fun _ => rfl)

/-! ### Claim C10 -/

/-- Shape of every `generate_persona_response` outcome: either a non-empty
text of at most 2000 characters with no error, or no text and a non-empty
error message. -/
theorem persona_out_spec (available : Bool) (api : Api) (mc sc : String)
    (hist : List HistoryEntry) :
    (∃ t, (generate_persona_response available api mc sc hist).response = some t
        ∧ (generate_persona_response available api mc sc hist).error = none
        ∧ t ≠ "" ∧ t.length ≤ 2000)
    ∨ ((generate_persona_response available api mc sc hist).response = none
        ∧ ∃ m, (generate_persona_response available api mc sc hist).error = some m
        ∧ m ≠ "") := by
  cases available with
  | false =>
    right
    exact ⟨rfl, "AI service unavailable", rfl, by decide⟩
  | true =>
    simp only [generate_persona_response, Bool.true_eq_false, if_false]
    rcases hres : (generate_response true api (full_prompt sc mc) hist 0).result
      with text | msg | _
    · by_cases hempty : (text == "" || decide (text.length > 2000)) = true
      · right
        refine ⟨?_, "Invalid response length", ?_, by decide⟩ <;> simp [hres, hempty]
      · left
        simp only [Bool.or_eq_true, beq_iff_eq, decide_eq_true_eq, not_or] at hempty
        refine ⟨text, ?_, ?_, hempty.1, by omega⟩
        · simp [hres, hempty.1, hempty.2]
        · simp [hres, hempty.1, hempty.2]
    · by_cases hmsg : (msg != "") = true
      · right
        refine ⟨?_, msg, ?_, by simpa using hmsg⟩ <;> simp [hres, hmsg]
      · have hmsg' : (msg != "") = false := by simpa using hmsg
        right
        refine ⟨?_, "Invalid response length", ?_, by decide⟩ <;> simp [hres, hmsg']
    · right
      refine ⟨?_, "Error generating response: API rate limit exceeded", ?_, by decide⟩ <;>
        simp [hres]

/-- Claim C10: `generate_persona_response` always returns either
`(text, None)` with a non-empty text of at most 2000 characters, or
`(None, error)` with a non-empty error message; it never returns both a
text and an error, never `(None, None)`, and (the `RateLimitExceeded`
raised by the base operation being caught by this function's own
`except Exception` clause) these two shapes are exhaustive. -/
theorem claim_C10 (available : Bool) (api : Api) (mc sc : String)
    (hist : List HistoryEntry) :
    (∃ t, (generate_persona_response available api mc sc hist).response = some t
        ∧ (generate_persona_response available api mc sc hist).error = none
        ∧ t ≠ "" ∧ t.length ≤ 2000)
    ∨ ((generate_persona_response available api mc sc hist).response = none
        ∧ ∃ m, (generate_persona_response available api mc sc hist).error = some m
        ∧ m ≠ "") :=
  persona_out_spec available api mc sc hist

/-! ### Claim C6 -/

/-- Whether a database operation outcome is a connection-kind
(`Unavailable`) error. -/
def exceptIsConnErr {α : Type u} : Except DBError α → Bool
  | .error (.connectionError _) => true
  | _ => false

/-- Claim C6 as stated is false: with a client whose ping and reconnect
both fail, `get_thread_data` surfaces a `QueryError` — the internal
`ConnectionError("Database unavailable")` is caught by the operation's own
`except Exception` clause and re-raised as
`QueryError("Failed to fetch thread 1")` — not a connection-kind error. -/
theorem claim_C6_counterexample :
    (get_thread_data ⟨true, false, false, false, true⟩ [] 1).1
        = .error (.queryError "Failed to fetch thread 1")
      ∧ (get_thread_data ⟨true, false, false, false, true⟩ [] 1).2 = 1
      ∧ exceptIsConnErr (get_thread_data ⟨true, false, false, false, true⟩ [] 1).1 = false := by
  exact ⟨rfl, rfl, rfl⟩

/-- Claim C6 (amended): when the connection is down (ping fails and the
reconnect attempt fails), every Session Store operation attempts exactly
one reconnect if a client object exists (and none when it does not), and
then fails with a `QueryError` wrapping the internal connection failure —
not with a connection-kind error. -/
theorem claim_C6 (c : DBConn) (s : ThreadStore) (tid uid : Nat) (u a : String)
    (data : SessionDoc) (hping : c.pingOk = false) (hrec : c.reconnectOk = false) :
    (get_thread_data c s tid).1
        = .error (.queryError ("Failed to fetch thread " ++ toString tid))
      ∧ (get_thread_data c s tid).2 = (if c.clientExists then 1 else 0)
      ∧ (create_thread_document c s tid data).1
          = .error (.queryError ("Failed to create thread " ++ toString tid))
      ∧ (create_thread_document c s tid data).2.2 = (if c.clientExists then 1 else 0)
      ∧ (update_thread_history c s tid u a).1
          = .error (.queryError ("Failed to update thread " ++ toString tid ++ " history"))
      ∧ (update_thread_history c s tid u a).2.2 = (if c.clientExists then 1 else 0)
      ∧ (delete_thread c s tid).1
          = .error (.queryError ("Failed to delete thread " ++ toString tid))
      ∧ (delete_thread c s tid).2.2 = (if c.clientExists then 1 else 0)
      ∧ (get_user_thread_count c s uid).1
          = .error (.queryError ("Failed to count threads for user " ++ toString uid))
      ∧ (get_user_thread_count c s uid).2 = (if c.clientExists then 1 else 0)
      ∧ (get_active_thread_count c s).1
          = .error (.queryError "Failed to count active threads")
      ∧ (get_active_thread_count c s).2 = (if c.clientExists then 1 else 0) := by
  have hc : is_connected c = (false, if c.clientExists then 1 else 0) := by
    cases hcl : c.clientExists <;> simp [is_connected, hcl, hping, hrec]
  refine ⟨?_, ?_, ?_, ?_, ?_, ?_, ?_, ?_, ?_, ?_, ?_, ?_⟩ <;>
    simp [get_thread_data, create_thread_document, update_thread_history,
      delete_thread, get_user_thread_count, get_active_thread_count, hc]

/-- Witness for claim C6 at a concrete down connection. -/
theorem claim_C6_witness :
    (get_thread_data ⟨true, false, false, false, true⟩ [] 3).1
        = .error (.queryError ("Failed to fetch thread " ++ toString 3))
      ∧ (get_thread_data ⟨true, false, false, false, true⟩ [] 3).2
          = (if (true : Bool) then 1 else 0)
      ∧ (create_thread_document ⟨true, false, false, false, true⟩ [] 3
            (initial_thread_data "Elena" "kind" 5 none 7 "t0" "u0")).1
          = .error (.queryError ("Failed to create thread " ++ toString 3))
      ∧ (create_thread_document ⟨true, false, false, false, true⟩ [] 3
            (initial_thread_data "Elena" "kind" 5 none 7 "t0" "u0")).2.2
          = (if (true : Bool) then 1 else 0)
      ∧ (update_thread_history ⟨true, false, false, false, true⟩ [] 3 "u" "a").1
          = .error (.queryError ("Failed to update thread " ++ toString 3 ++ " history"))
      ∧ (update_thread_history ⟨true, false, false, false, true⟩ [] 3 "u" "a").2.2
          = (if (true : Bool) then 1 else 0)
      ∧ (delete_thread ⟨true, false, false, false, true⟩ [] 3).1
          = .error (.queryError ("Failed to delete thread " ++ toString 3))
      ∧ (delete_thread ⟨true, false, false, false, true⟩ [] 3).2.2
          = (if (true : Bool) then 1 else 0)
      ∧ (get_user_thread_count ⟨true, false, false, false, true⟩ [] 9).1
          = .error (.queryError ("Failed to count threads for user " ++ toString 9))
      ∧ (get_user_thread_count ⟨true, false, false, false, true⟩ [] 9).2
          = (if (true : Bool) then 1 else 0)
      ∧ (get_active_thread_count ⟨true, false, false, false, true⟩ []).1
          = .error (.queryError "Failed to count active threads")
      ∧ (get_active_thread_count ⟨true, false, false, false, true⟩ []).2
          = (if (true : Bool) then 1 else 0) :=
  claim_C6 ⟨true, false, false, false, true⟩ [] 3 9 "u" "a"
    (initial_thread_data "Elena" "kind" 5 none 7 "t0" "u0") rfl rfl

/-! ### Claim C8 -/

/-- The cache-poisoning invariant: every cached document carries all three
required fields. -/
def cacheAllValid (cache : Cache) : Bool :=
  cache.all (fun p => requiredFieldsPresent p.2)

/-- Claim C8: the session cache stores and serves only documents carrying
all three required fields (`name`, `history`, `system_context`).  Given the
cache invariant: the invariant is preserved by `_get_thread_data`; any
document it resolves is fully populated; and on a cache miss a fetched
document missing a required field is treated as absent and the cache is
left unchanged. -/
theorem claim_C8 (cache : Cache) (c : DBConn) (s : ThreadStore) (tid : Nat)
    (hvalid : cacheAllValid cache = true) :
    cacheAllValid (events_get_thread_data cache c s tid).2 = true
      ∧ (match (events_get_thread_data cache c s tid).1 with
          | .ok (some d) => requiredFieldsPresent d
          | _ => true) = true
      ∧ ((match dictGet cache tid, (get_thread_data c s tid).1 with
          | none, .ok (some d) => !(requiredFieldsPresent d)
          | _, _ => false) = false
        ∨ events_get_thread_data cache c s tid = (.ok none, cache)) := by
  rcases hhit : dictGet cache tid with _ | d
  · rcases hdb : get_thread_data c s tid with ⟨r, n⟩
    rcases r with e | od
    · refine ⟨?_, ?_, Or.inl ?_⟩ <;> simp [events_get_thread_data, hhit, hdb, hvalid]
    · rcases od with _ | d
      · refine ⟨?_, ?_, Or.inl ?_⟩ <;> simp [events_get_thread_data, hhit, hdb, hvalid]
      · by_cases hreq : requiredFieldsPresent d = true
        · refine ⟨?_, ?_, Or.inl ?_⟩ <;>
            simp [events_get_thread_data, hhit, hdb, hreq, hvalid,
              cacheAllValid, dictSet_all hvalid hreq]
        · have hreq' : requiredFieldsPresent d = false := by simpa using hreq
          refine ⟨?_, ?_, Or.inr ?_⟩ <;>
            simp [events_get_thread_data, hhit, hdb, hreq', hvalid]
  · have hd : requiredFieldsPresent d = true := dictGet_all hvalid hhit
    refine ⟨?_, ?_, Or.inl ?_⟩ <;> simp [events_get_thread_data, hhit, hvalid, hd]

/-- Witness for claim C8: an all-valid (singleton) cache, a store holding a
partial document, and a miss on that document. -/
theorem claim_C8_witness :
    cacheAllValid (events_get_thread_data
        [(1, initial_thread_data "Elena" "kind" 5 none 7 "t0" "u0")]
        ⟨true, true, true, false, true⟩
        [(2, ⟨some "Ghost", none, none, none, none, none, none, none, none⟩)] 2).2 = true
      ∧ (match (events_get_thread_data
            [(1, initial_thread_data "Elena" "kind" 5 none 7 "t0" "u0")]
            ⟨true, true, true, false, true⟩
            [(2, ⟨some "Ghost", none, none, none, none, none, none, none, none⟩)] 2).1 with
          | .ok (some d) => requiredFieldsPresent d
          | _ => true) = true
      ∧ ((match dictGet [(1, initial_thread_data "Elena" "kind" 5 none 7 "t0" "u0")] 2,
            (get_thread_data ⟨true, true, true, false, true⟩
              [(2, ⟨some "Ghost", none, none, none, none, none, none, none, none⟩)] 2).1 with
          | none, .ok (some d) => !(requiredFieldsPresent d)
          | _, _ => false) = false
        ∨ events_get_thread_data
            [(1, initial_thread_data "Elena" "kind" 5 none 7 "t0" "u0")]
            ⟨true, true, true, false, true⟩
            [(2, ⟨some "Ghost", none, none, none, none, none, none, none, none⟩)] 2
          = (.ok none, [(1, initial_thread_data "Elena" "kind" 5 none 7 "t0" "u0")])) :=
  claim_C8 [(1, initial_thread_data "Elena" "kind" 5 none 7 "t0" "u0")]
    ⟨true, true, true, false, true⟩
    [(2, ⟨some "Ghost", none, none, none, none, none, none, none, none⟩)] 2 rfl

/-! ### Claim C9 -/

theorem generate_response_sent_history (available : Bool) (api : Api) (mc : String)
    (hist : List HistoryEntry) :
    ∀ fuel k, MAX_RETRIES - k ≤ fuel →
      (generate_response available api mc hist k).sent.all
        (fun q => decide (q.2 = hist)) = true := by
  intro fuel
  induction fuel with
  | zero =>
    intro k hk
    have hk3 : ¬ k < MAX_RETRIES := by omega
    rw [generate_response.eq_def]
    cases available with
    | false => simp
    | true =>
      cases hapi : api k with
      | response cands blockReason =>
        cases cands with
        | nil => cases blockReason <;> simp [hapi]
        | cons chead rest => by_cases hp : chead.parts.isEmpty <;> simp [hapi, hp]
      | resourceExhausted => simp [hapi, hk3]
      | googleApiError m => simp [hapi]
      | otherError m => simp [hapi]
  | succ n ih =>
    intro k hk
    rw [generate_response.eq_def]
    cases available with
    | false => simp
    | true =>
      cases hapi : api k with
      | response cands blockReason =>
        cases cands with
        | nil => cases blockReason <;> simp [hapi]
        | cons chead rest => by_cases hp : chead.parts.isEmpty <;> simp [hapi, hp]
      | resourceExhausted =>
        by_cases hk3 : k < MAX_RETRIES
        · have hrec := ih (k + 1) (by omega)
          simp [hapi, hk3, hrec]
        · simp [hapi, hk3]
      | googleApiError m => simp [hapi]
      | otherError m => simp [hapi]

theorem update_thread_history_frame (c : DBConn) (s : ThreadStore) (tid : Nat)
    (u a : String) :
    (update_thread_history c s tid u a).2.1.filter (fun p => p.1 != tid)
      = s.filter (fun p => p.1 != tid) := by
  by_cases hc : (is_connected c).1 = false
  · simp [update_thread_history, hc]
  · simp [update_thread_history, hc, storeUpdateOne_frame]

theorem events_update_frame (c : DBConn) (s : ThreadStore) (tid : Nat)
    (u a : String) :
    (events_update_thread_history c s tid u a).2.filter (fun p => p.1 != tid)
      = s.filter (fun p => p.1 != tid) := by
  have hu := update_thread_history_frame c s tid u a
  simp only [events_update_thread_history]
  rcases hupd : update_thread_history c s tid u a with ⟨r, s', n⟩
  rw [hupd] at hu
  cases r <;> simpa using hu

theorem persona_sent_history (available : Bool) (api : Api) (mc sc : String)
    (hist : List HistoryEntry) :
    (generate_persona_response available api mc sc hist).sent.all
      (fun q => decide (q.2 = hist)) = true := by
  cases available with
  | false => simp [generate_persona_response]
  | true =>
    have hbase := generate_response_sent_history true api (full_prompt sc mc) hist
      MAX_RETRIES 0 (by omega)
    simp only [generate_persona_response, Bool.true_eq_false, if_false]
    rcases hres : (generate_response true api (full_prompt sc mc) hist 0).result
      with text | msg | _
    · by_cases hempty : (text == "" || decide (text.length > 2000)) = true <;>
        simp [hres, hempty, hbase]
    · by_cases hmsg : (msg != "") = true <;> simp [hres, hmsg, hbase]
    · simp [hres, hbase]

theorem events_sent_history (available : Bool) (api : Api) (mc sc : String)
    (hist : List HistoryEntry) :
    (events_generate_ai_response available api mc sc hist).2.all
      (fun q => decide (q.2 = hist)) = true := by
  cases available with
  | false => simp [events_generate_ai_response]
  | true =>
    have hp := persona_sent_history true api mc sc hist
    simp only [events_generate_ai_response, Bool.true_eq_false, if_false]
    split
    · simpa using hp
    · split <;> simpa using hp

/-- Claim C9: handling a message in a thread whose session is already
cached never updates or removes the cache entry (indeed leaves the whole
cache untouched); the history-append touches only the persistence store,
and only at the handled thread id; and every AI request assembled during
the step carries exactly the cached history snapshot — regardless of what
the persisted history currently contains. -/
theorem claim_C9 (available : Bool) (api : Api) (c : DBConn) (cache : Cache)
    (s : ThreadStore) (tid : Nat) (content : String) (d : SessionDoc)
    (hhit : dictGet cache tid = some d) :
    (handle_thread_message available api c cache s tid content).cache = cache
      ∧ (handle_thread_message available api c cache s tid content).requests.all
          (fun q => decide (q.2 = d.history.getD [])) = true
      ∧ (handle_thread_message available api c cache s tid content).store.filter
          (fun p => p.1 != tid) = s.filter (fun p => p.1 != tid) := by
  have hsent := events_sent_history available api content (d.system_context.getD "")
    (d.history.getD [])
  have hresolve : events_get_thread_data cache c s tid = (.ok (some d), cache) := by
    simp [events_get_thread_data, hhit]
  refine ⟨?_, ?_, ?_⟩
  · simp [handle_thread_message, hresolve, process_persona_message]
  · simp only [handle_thread_message, hresolve, process_persona_message]
    split <;> simpa using hsent
  · simp only [handle_thread_message, hresolve, process_persona_message]
    split
    · simp
    · simp [events_update_frame]

/-- Witness for claim C9: a cached session, an upstream that answers, and
an empty persistence store. -/
theorem claim_C9_witness :
    (handle_thread_message true (fun _ => ApiResult.response [⟨[⟨"hey"⟩]⟩] none)
        ⟨true, true, true, false, true⟩
        [(1, initial_thread_data "Elena" "kind" 5 none 7 "t0" "u0")] [] 1 "hi").cache
      = [(1, initial_thread_data "Elena" "kind" 5 none 7 "t0" "u0")]
    ∧ (handle_thread_message true (fun _ => ApiResult.response [⟨[⟨"hey"⟩]⟩] none)
        ⟨true, true, true, false, true⟩
        [(1, initial_thread_data "Elena" "kind" 5 none 7 "t0" "u0")] [] 1 "hi").requests.all
          (fun q => decide (q.2 = (initial_thread_data "Elena" "kind" 5 none 7 "t0" "u0").history.getD []))
      = true
    ∧ (handle_thread_message true (fun _ => ApiResult.response [⟨[⟨"hey"⟩]⟩] none)
        ⟨true, true, true, false, true⟩
        [(1, initial_thread_data "Elena" "kind" 5 none 7 "t0" "u0")] [] 1 "hi").store.filter
          (fun p => p.1 != 1)
      = ([] : ThreadStore).filter (fun p => p.1 != 1) :=
  claim_C9 true (fun _ => ApiResult.response [⟨[⟨"hey"⟩]⟩] none)
    ⟨true, true, true, false, true⟩
    [(1, initial_thread_data "Elena" "kind" 5 none 7 "t0" "u0")] [] 1 "hi"
    (initial_thread_data "Elena" "kind" 5 none 7 "t0" "u0") rfl

/-! ### Claim C2 -/

theorem events_eq_persona (available : Bool) (api : Api) (mc sc : String)
    (hist : List HistoryEntry) :
    (events_generate_ai_response available api mc sc hist).1
      = (generate_persona_response available api mc sc hist).response := by
  cases available with
  | false => simp [events_generate_ai_response, generate_persona_response]
  | true =>
    rcases persona_out_spec true api mc sc hist with
      ⟨t, hresp, herr, hne, hlen⟩ | ⟨hresp, m, herr, hne⟩
    · have hnot : ¬ (2000 < t.length) := by omega
      simp [events_generate_ai_response, hresp, herr, pyTruthy, hne,
        MAX_MESSAGE_LENGTH, hnot]
    · simp [events_generate_ai_response, hresp, herr, pyTruthy, hne]

/-- Claim C2 (amended): a completion-stage reply longer than 2000
characters never reaches the pipeline's truncation branch: it is rejected
by `generate_persona_response` as `"Invalid response length"`, so the
pipeline obtains no reply at all — nothing is sent and nothing is
persisted.  The pipeline always forwards the persona-stage text verbatim
(the `[:1997] + "..."` truncation in `_generate_ai_response` is
unreachable), and any reply it does produce has at most 2000 characters. -/
theorem claim_C2 (available : Bool) (api : Api) (mc sc : String)
    (hist : List HistoryEntry) :
    ((match (generate_response available api (full_prompt sc mc) hist 0).result with
        | .ok t => decide (2000 < t.length)
        | _ => false) = false
      ∨ ((generate_persona_response available api mc sc hist).response = none
          ∧ (generate_persona_response available api mc sc hist).error
              = some "Invalid response length"
          ∧ (events_generate_ai_response available api mc sc hist).1 = none))
    ∧ (events_generate_ai_response available api mc sc hist).1
        = (generate_persona_response available api mc sc hist).response
    ∧ (match (events_generate_ai_response available api mc sc hist).1 with
        | some r => decide (r.length ≤ 2000)
        | none => true) = true := by
  refine ⟨?_, events_eq_persona available api mc sc hist, ?_⟩
  · cases available with
    | false => left; simp [generate_response]
    | true =>
      rcases hres : (generate_response true api (full_prompt sc mc) hist 0).result
        with text | msg | _
      · by_cases hover : 2000 < text.length
        · right
          have hcond : (text == "" || decide (text.length > 2000)) = true := by
            simp [hover]
          have hresp : (generate_persona_response true api mc sc hist).response = none := by
            simp [generate_persona_response, hres, hcond]
          have herr : (generate_persona_response true api mc sc hist).error
              = some "Invalid response length" := by
            simp [generate_persona_response, hres, hcond]
          exact ⟨hresp, herr, by rw [events_eq_persona]; exact hresp⟩
        · left; simp [hres, hover]
      · left; simp [hres]
      · left; simp [hres]
  · rcases persona_out_spec available api mc sc hist with
      ⟨t, hresp, _, _, hlen⟩ | ⟨hresp, _, _, _⟩
    · rw [events_eq_persona, hresp]
      simpa using hlen
    · rw [events_eq_persona, hresp]

/-- A 2001-character completion-stage reply. -/
def overLong : String := String.mk (List.replicate 2001 'a')

set_option maxRecDepth 8192 in
/-- Claim C2 as stated is false: on a completion-stage reply of 2001
characters the pipeline does not send a 2000-character truncation — the
persona layer rejects the reply (`"Invalid response length"`) and the
pipeline produces no message at all (nothing sent, nothing persisted). -/
theorem claim_C2_counterexample :
    (generate_response true (fun _ => ApiResult.response [⟨[⟨overLong⟩]⟩] none)
        (full_prompt "ctx" "hi") [] 0).result = .ok overLong
      ∧ 2000 < overLong.length
      ∧ (generate_persona_response true (fun _ => ApiResult.response [⟨[⟨overLong⟩]⟩] none)
          "hi" "ctx" []).error = some "Invalid response length"
      ∧ (generate_persona_response true (fun _ => ApiResult.response [⟨[⟨overLong⟩]⟩] none)
          "hi" "ctx" []).response = none
      ∧ (events_generate_ai_response true (fun _ => ApiResult.response [⟨[⟨overLong⟩]⟩] none)
          "hi" "ctx" []).1 = none := by
  have hjoin : String.join [overLong] = overLong := rfl
  have hlen : overLong.length = 2001 := by
    rw [show overLong.length = (List.replicate 2001 'a').length from rfl]
    simp
  have hgen : generate_response true (fun _ => ApiResult.response [⟨[⟨overLong⟩]⟩] none)
      (full_prompt "ctx" "hi") [] 0
      = ⟨[(full_prompt "ctx" "hi", [])], [], .ok overLong⟩ := by
    simp [generate_response, candText, hjoin]
  have hper : generate_persona_response true
      (fun _ => ApiResult.response [⟨[⟨overLong⟩]⟩] none) "hi" "ctx" []
      = ⟨[(full_prompt "ctx" "hi", [])], [], none, some "Invalid response length"⟩ := by
    simp [generate_persona_response, hgen, hlen]
  refine ⟨by rw [hgen], by rw [hlen]; omega, by rw [hper], by rw [hper], ?_⟩
  simp [events_generate_ai_response, hper, pyTruthy]

/-! ### Claim C3 -/

/-- Claim C3 is the code's intent but not its behaviour: the compensating
`thread.delete()` in `_initialize_persona` runs only when
`create_thread_document` *returns* `False`.  When the session-document
write *raises* (any driver exception, e.g. the connection dropping during
`insert_one`, surfaces as `QueryError`), the exception propagates past the
compensating branch: the operation is reported as failed, but the platform
thread is never deleted — an orphaned thread without a session document.
Evaluated at the failing input (thread id 42, insert raising), and
contrasted with the handled `return False` mode, where the delete does
run. -/
theorem claim_C3 :
    (create_persona_thread true ⟨true, true, true, true, true⟩ [] ⟨[], []⟩
        ⟨7, 1000, "Elena", some "image/png", "http://a/av.png", none, true,
          .ok 42, 5, some 9, "t0", true⟩).threadCreated = true
      ∧ (create_persona_thread true ⟨true, true, true, true, true⟩ [] ⟨[], []⟩
          ⟨7, 1000, "Elena", some "image/png", "http://a/av.png", none, true,
            .ok 42, 5, some 9, "t0", true⟩).threadDeleted = false
      ∧ (create_persona_thread true ⟨true, true, true, true, true⟩ [] ⟨[], []⟩
          ⟨7, 1000, "Elena", some "image/png", "http://a/av.png", none, true,
            .ok 42, 5, some 9, "t0", true⟩).failure
          = some (.dbError (.queryError "Failed to create thread 42"))
      ∧ (create_persona_thread true ⟨true, true, true, true, true⟩ [] ⟨[], []⟩
          ⟨7, 1000, "Elena", some "image/png", "http://a/av.png", none, true,
            .ok 42, 5, some 9, "t0", true⟩).reply
          = "❌ An unexpected error occurred. Please try again later."
      ∧ dictGet (create_persona_thread true ⟨true, true, true, true, true⟩ [] ⟨[], []⟩
          ⟨7, 1000, "Elena", some "image/png", "http://a/av.png", none, true,
            .ok 42, 5, some 9, "t0", true⟩).store 42 = none
      ∧ (create_persona_thread true ⟨true, true, true, false, false⟩ [] ⟨[], []⟩
          ⟨7, 1000, "Elena", some "image/png", "http://a/av.png", none, true,
            .ok 42, 5, some 9, "t0", true⟩).threadDeleted = true
      ∧ (create_persona_thread true ⟨true, true, true, false, false⟩ [] ⟨[], []⟩
          ⟨7, 1000, "Elena", some "image/png", "http://a/av.png", none, true,
            .ok 42, 5, some 9, "t0", true⟩).failure
          = some (.personaCommandError "Failed to save persona data") := by
  decide

/-! ### Claim C7 -/

/-- Claim C7 (amended): with the AI available, the connection up, the
cooldown precondition passing and the per-user session cap passing, a
creation request whose name has fewer than 2 or more than 32 characters
fails with `InvalidPersonaParameters("Name must be 2-32 characters")`: no
platform thread is created, no session document is written, and the
cooldown timestamp map is unchanged — but the in-memory per-user session
count is refreshed to the persistence layer's authoritative count by the
cap check that runs before name validation (a change whenever the
in-memory entry was stale or missing); it is not incremented. -/
theorem claim_C7 (c : DBConn) (s : ThreadStore) (st : CmdState) (inp : CreateInput)
    (hclient : c.clientExists = true) (hping : c.pingOk = true)
    (hcool : (match dictGet st.user_cooldowns inp.user with
        | some last => decide (inp.now - last < RATE_LIMIT_SECONDS)
        | none => false) = false)
    (hcap : decide (MAX_THREADS_PER_USER
        ≤ (s.filter (fun p => p.2.created_by == some inp.user)).length) = false)
    (hname : (decide (inp.name.length < 2) || decide (32 < inp.name.length)) = true) :
    create_persona_thread true c s st inp
      = ⟨⟨st.user_cooldowns,
          dictSet st.user_thread_counts inp.user
            (s.filter (fun p => p.2.created_by == some inp.user)).length⟩,
        s, false, false,
        some (.invalidPersonaParameters "Name must be 2-32 characters"),
        "❌ Name must be 2-32 characters"⟩ := by
  have hconn : is_connected c = (true, 0) := by
    simp [is_connected, hclient, hping]
  have hcount : get_user_thread_count c s inp.user
      = (.ok (s.filter (fun p => p.2.created_by == some inp.user)).length, 0) := by
    simp [get_user_thread_count, hconn]
  have hcrl : check_rate_limit c s st inp.user inp.now
      = (.ok (), ⟨st.user_cooldowns, dictSet st.user_thread_counts inp.user
          (s.filter (fun p => p.2.created_by == some inp.user)).length⟩) := by
    simp only [check_rate_limit, hcool, hcount]
    simp [hcap]
  simp only [create_persona_thread, hcrl]
  simp [hname, reportExn, isPersonaCommandError, pyExnMsg]

/-- Witness for claim C7: the 1-character name `"A"` with all earlier
preconditions passing. -/
theorem claim_C7_witness :
    create_persona_thread true ⟨true, true, true, false, true⟩ [] ⟨[], []⟩
        ⟨7, 1000, "A", some "image/png", "http://a/av.png", none, true,
          .ok 42, 5, some 9, "t0", true⟩
      = ⟨⟨([] : List (Nat × Nat)),
          dictSet [] 7 (([] : ThreadStore).filter
            (fun p => p.2.created_by == some 7)).length⟩,
        [], false, false,
        some (.invalidPersonaParameters "Name must be 2-32 characters"),
        "❌ Name must be 2-32 characters"⟩ :=
  claim_C7 ⟨true, true, true, false, true⟩ [] ⟨[], []⟩
    ⟨7, 1000, "A", some "image/png", "http://a/av.png", none, true,
      .ok 42, 5, some 9, "t0", true⟩ rfl rfl rfl rfl rfl

/-- Claim C7 as stated is false on one point: the user's in-memory session
count is not left unchanged.  With a stale in-memory count of 1 and an
authoritative database count of 0, the failed `"A"`-name request rewrites
the count to 0 before name validation. -/
theorem claim_C7_counterexample :
    (create_persona_thread true ⟨true, true, true, false, true⟩ [] ⟨[], [(7, 1)]⟩
        ⟨7, 1000, "A", some "image/png", "http://a/av.png", none, true,
          .ok 42, 5, some 9, "t0", true⟩).failure
      = some (.invalidPersonaParameters "Name must be 2-32 characters")
    ∧ (create_persona_thread true ⟨true, true, true, false, true⟩ [] ⟨[], [(7, 1)]⟩
        ⟨7, 1000, "A", some "image/png", "http://a/av.png", none, true,
          .ok 42, 5, some 9, "t0", true⟩).state.user_thread_counts = [(7, 0)]
    ∧ (create_persona_thread true ⟨true, true, true, false, true⟩ [] ⟨[], [(7, 1)]⟩
        ⟨7, 1000, "A", some "image/png", "http://a/av.png", none, true,
          .ok 42, 5, some 9, "t0", true⟩).state.user_thread_counts ≠ [(7, 1)] := by
  decide

end Elena
